import Mathlib

/-!
Shallow embedding of the stage-orchestration and streaming-delivery engine of
the LLM Council backend (src/backend/main.py), centred on the async generator
event_generator inside send_message_stream, together with the handler heads of
send_message and send_message_stream.

Modelling conventions:
* An SSE data line is one discrete JSON object; we model it by the inductive
  SSEEvent, keeping exactly the payload fields the claims talk about.
* The external world of one run (which agent task finishes when and with what
  payload, when the client-disconnect flag gets set, whether the opaque
  stage-2 / stage-3 / title collaborator calls raise) is an Oracle record; the
  generator is then a pure function of the request data and the oracle.
* The cancellation flag (an asyncio.Event set once by the disconnect monitor)
  is monotone; the generator reads it at discrete checkpoints: before handling
  the i-th completed stage-1 task (checkpoint i, line 330) and once after the
  loop, before stage1_complete (checkpoint n, line 358).  Oracle.cancelAt k
  means the flag reads false at checkpoints below k and true from checkpoint k
  on; none means the flag is never set during the run.
* The stage-1 loop iterates asyncio.as_completed(tasks) with a plain for
  (line 328).  Plain iteration of as_completed yields fresh awaitable
  objects that resolve to the earliest-completed result; it never yields the
  original Task objects that key task_to_model (lines 314-320).  The lookup
  task_to_model.get(done_task, None) at line 345 therefore always returns
  None, the guard at line 346 is never taken, no stage1_progress event is
  ever emitted, completed_count never increments, and stage1_results stays
  empty.  The embedding makes this explicit through taskLookup.
* Persistence calls to the storage collaborator are recorded in a Persist
  record (user message, conversation title, assistant message).
-/

namespace LLMCouncil

/-- Outcome of one stage-1 agent task, in completion order.  `response` is
what awaiting the as_completed awaitable returns: the content produced by the
earliest not-yet-consumed completed invocation, or none when that invocation
failed.  `model` is oracle book-keeping naming the agent whose task that was;
the program itself cannot recover it (see taskLookup), so the generator never
reads this field.

Modelled from the spec: query_model lives in src/backend/openrouter.py, which
is not part of the sources; per the design, an individual agent invocation
that fails (timeout, error response, malformed payload) yields an error for
that agent only and does not abort sibling invocations, which main.py consumes
as a none response (the `if response is not None` guard at line 351). -/
structure AgentOutcome where
  model : String
  response : Option String
deriving DecidableEq, Repr

/-- One entry of the stage-1 result set: model plus its raw answer text
(main.py lines 352-355). -/
structure Stage1Result where
  model : String
  response : String
deriving DecidableEq, Repr

/-- The typed events the generator writes to the SSE stream, one constructor
per distinct `type` field, carrying the payload parts the claims mention. -/
inductive SSEEvent where
  | stage1_start (total : Nat)
  | stage1_progress (model : String) (completed : Nat) (total : Nat)
      (completed_agents : List String)
  | stage1_complete (results : List Stage1Result)
  | stage2_start
  | stage2_complete
  | stage3_start
  | stage3_complete (result : String)
  | title_complete (title : String)
  | complete
  | cancelled (message : String)
  | error (message : String)
deriving DecidableEq, Repr

/-- The external world of one streamed run: stage-1 task completions in actual
completion order, the checkpoint index from which the cancellation flag reads
true, and the behaviour of the opaque collaborator calls (stage-2 ranking
collection, stage-3 synthesis, title generation), each of which either returns
a value or raises. -/
structure Oracle where
  completions : List AgentOutcome
  cancelAt : Option Nat
  stage2Fails : Bool
  stage3Fails : Bool
  titleFails : Bool
  councilFails : Bool
  titleText : String
  stage3Text : String
  faultMsg : String
deriving DecidableEq, Repr

/-- Request-level data the generator closes over: the parsed agent list
(none when selected_agents was absent or failed to parse, main.py lines
186-192) and whether this is the conversation's first message. -/
structure RunEnv where
  agents : Option (List String)
  isFirstMessage : Bool
  world : Oracle
deriving DecidableEq, Repr

/-- Which storage mutations the run performed. -/
structure Persist where
  userMessageAdded : Bool
  titleUpdated : Bool
  assistantMessageAdded : Bool
deriving DecidableEq, Repr

/-- Observable outcome of one run of event_generator: the SSE events in
emission order, the storage effects, and the stage-1 result list passed to
stage2_collect_rankings when that call was reached (none otherwise). -/
structure RunOut where
  events : List SSEEvent
  persist : Persist
  stage2Input : Option (List Stage1Result)
deriving DecidableEq, Repr

/-- Whether the cancellation flag reads true at checkpoint `i`. -/
def cancelSeen (cancelAt : Option Nat) (i : Nat) : Bool :=
  match cancelAt with
  | none => false
  | some k => k ≤ i

/-- The cancellation event emitted at the explicit flag checkpoints
(main.py lines 335 and 359). -/
def cancelledUser : SSEEvent := SSEEvent.cancelled "Request cancelled by user"

/-- str(TypeError) produced by len(None) at main.py line 308 when
agents_to_use is still None. -/
def lenNoneMsg : String := "object of type NoneType has no len"

/-- task_to_model.get(done_task, None) at main.py line 345.  Plain iteration
of asyncio.as_completed (line 328) yields fresh awaitable objects, never the
original Task objects that were used as keys when task_to_model was built at
lines 317-320; the lookup therefore returns None for every handled
completion, whichever agent's result it carries. -/
def taskLookup (done : AgentOutcome) : Option String := none

/-- The as_completed loop of main.py lines 328-355.  Arguments: flag
checkpoint index `i`, accumulated completed_agents `ca`, completed_count
`cnt`, accumulated stage1_results `res`.  Each iteration checks the
cancellation flag, awaits the completion's response, and attributes it via
taskLookup; since that lookup always returns None, the line-346 guard is
never taken, so the loop emits no stage1_progress events and accumulates
nothing — its only effects are the per-completion flag checks.  Returns the
events yielded by the loop, the final stage1_results, and whether the loop
returned early on an observed cancellation. -/
def stage1Loop (cancelAt : Option Nat) (total : Nat) :
    List AgentOutcome → Nat → List String → Nat → List Stage1Result →
      List SSEEvent × List Stage1Result × Bool
  | [], _, _, _, res => ([], res, false)
  | o :: rest, i, ca, cnt, res =>
    if cancelSeen cancelAt i then
      ([cancelledUser], res, true)
    else
      match taskLookup o with
      | some m =>
        if m ≠ "" ∧ m ∉ ca then
          let ca2 := ca ++ [m]
          let res2 :=
            match o.response with
            | some r => res ++ [⟨m, r⟩]
            | none => res
          let rec1 := stage1Loop cancelAt total rest (i + 1) ca2 (cnt + 1) res2
          (SSEEvent.stage1_progress m (cnt + 1) total ca2 :: rec1.1,
            rec1.2.1, rec1.2.2)
        else
          stage1Loop cancelAt total rest (i + 1) ca cnt res
      | none => stage1Loop cancelAt total rest (i + 1) ca cnt res

/-- Everything after the two post-loop cancellation checks: stage1_complete,
stage 2, stage 3, optional title completion, assistant persistence, complete
(main.py lines 362-396), with any raise from an opaque collaborator call
routed to the trailing `except Exception` which yields a single error event. -/
def restRun (env : RunEnv) (res : List Stage1Result) : RunOut :=
  let p0 : Persist := ⟨true, false, false⟩
  let base := [SSEEvent.stage1_complete res, SSEEvent.stage2_start]
  if env.world.stage2Fails then
    ⟨base ++ [SSEEvent.error env.world.faultMsg], p0, some res⟩
  else
    let base2 := base ++ [SSEEvent.stage2_complete, SSEEvent.stage3_start]
    if env.world.stage3Fails then
      ⟨base2 ++ [SSEEvent.error env.world.faultMsg], p0, some res⟩
    else
      let base3 := base2 ++ [SSEEvent.stage3_complete env.world.stage3Text]
      if env.isFirstMessage then
        if env.world.titleFails then
          ⟨base3 ++ [SSEEvent.error env.world.faultMsg], p0, some res⟩
        else
          ⟨base3 ++ [SSEEvent.title_complete env.world.titleText,
              SSEEvent.complete],
            ⟨true, true, true⟩, some res⟩
      else
        ⟨base3 ++ [SSEEvent.complete], ⟨true, false, true⟩, some res⟩

/-- The body of event_generator (main.py lines 232-396).  The user message is
persisted first (line 300); if the agent list is still None, evaluating
len(agents_to_use) inside the stage1_start f-string raises before anything is
yielded and the handler emits a single error event; otherwise the stage-1 loop
runs, the flag is re-checked once after the loop, and the remaining stages
follow. -/
def eventGenerator (env : RunEnv) : RunOut :=
  let p0 : Persist := ⟨true, false, false⟩
  match env.agents with
  | none => ⟨[SSEEvent.error lenNoneMsg], p0, none⟩
  | some agentsToUse =>
    let total := agentsToUse.length
    let r := stage1Loop env.world.cancelAt total env.world.completions 0 [] 0 []
    let head := SSEEvent.stage1_start total :: r.1
    if r.2.2 then
      ⟨head, p0, none⟩
    else if cancelSeen env.world.cancelAt env.world.completions.length then
      ⟨head ++ [cancelledUser], p0, none⟩
    else
      let rest := restRun env r.2.1
      ⟨head ++ rest.events, rest.persist, rest.stage2Input⟩

/-- What the handlers need of a stored conversation: how many messages it
already holds (is_first_message is messagesCount = 0, main.py lines 132 and
183). -/
structure ConversationRec where
  messagesCount : Nat
deriving DecidableEq, Repr

/-- Parsing of the selected_agents form field (main.py lines 186-192): a falsy
field (absent or empty) leaves the list None, otherwise json.loads is tried
and any parse failure is swallowed, leaving None.  `jsonParse` abstracts
json.loads restricted to payloads that denote a list of agent identifiers. -/
def parseAgents (jsonParse : String → Option (List String))
    (sel : Option String) : Option (List String) :=
  match sel with
  | none => none
  | some s => if s = "" then none else jsonParse s

/-- Observable outcome of one request to the streaming endpoint. -/
structure StreamOut where
  httpStatus : Option Nat
  events : List SSEEvent
  persist : Persist
  stage2Input : Option (List Stage1Result)
deriving DecidableEq, Repr

/-- Handler of POST /api/conversations/id/message/stream (main.py lines
164-412): looks the conversation up, answers 404 when it is absent, and
otherwise runs event_generator with the parsed agent list and the
first-message bit. -/
def send_message_stream (conv : Option ConversationRec)
    (jsonParse : String → Option (List String)) (sel : Option String)
    (world : Oracle) : StreamOut :=
  match conv with
  | none => ⟨some 404, [], ⟨false, false, false⟩, none⟩
  | some c =>
    let out := eventGenerator
      ⟨parseAgents jsonParse sel, c.messagesCount = 0, world⟩
    ⟨none, out.events, out.persist, out.stage2Input⟩

/-- Handler of the non-streaming POST /api/conversations/id/message (main.py
lines 120-161): 404 when the conversation is absent; otherwise the user
message is persisted, the title is generated and persisted when this is the
first message, the full council runs, and the assistant message is persisted.
A raise from the opaque title or council call escapes the handler (HTTP 500)
with everything persisted so far kept.  Returns the HTTP error status, if
any, and the storage effects. -/
def send_message (conv : Option ConversationRec) (world : Oracle) :
    Option Nat × Persist :=
  match conv with
  | none => (some 404, ⟨false, false, false⟩)
  | some c =>
    let first := c.messagesCount = 0
    if first ∧ world.titleFails then (some 500, ⟨true, false, false⟩)
    else if world.councilFails then (some 500, ⟨true, first, false⟩)
    else (none, ⟨true, first, true⟩)

/-- The three stream-terminating event types. -/
def isTerminal : SSEEvent → Bool
  | SSEEvent.complete => true
  | SSEEvent.cancelled _ => true
  | SSEEvent.error _ => true
  | _ => false

/-- Recogniser for stage1_progress events. -/
def isProgress : SSEEvent → Bool
  | SSEEvent.stage1_progress _ _ _ _ => true
  | _ => false

/-- Recogniser for cancelled events. -/
def isCancelledEvt : SSEEvent → Bool
  | SSEEvent.cancelled _ => true
  | _ => false

/-- Recogniser for error events. -/
def isErrorEvt : SSEEvent → Bool
  | SSEEvent.error _ => true
  | _ => false

/-- The full event sequence of a run that reaches `complete`: stage1_start,
no stage1_progress events (the attribution lookup never succeeds, so the
progress mechanism never fires — see taskLookup), stage1_complete carrying
the always-empty stage-1 result list, the stage completions in order, the
title event exactly on a first message, then complete. -/
def successTrace (env : RunEnv) (agentsToUse : List String) : List SSEEvent :=
  SSEEvent.stage1_start agentsToUse.length ::
    [SSEEvent.stage1_complete [], SSEEvent.stage2_start,
      SSEEvent.stage2_complete, SSEEvent.stage3_start,
      SSEEvent.stage3_complete env.world.stage3Text] ++
    (if env.isFirstMessage then
        [SSEEvent.title_complete env.world.titleText]
      else []) ++
    [SSEEvent.complete]

/-- A fault-free world: two agents, B answers first, A's invocation fails;
flag never set; all collaborator calls succeed. -/
def okWorld : Oracle :=
  ⟨[⟨"B", some "rb"⟩, ⟨"A", none⟩], none, false, false, false, false,
    "T", "S", "boom"⟩

/-- A fault-free first-message run over agents A and B in okWorld. -/
def okEnv : RunEnv := ⟨some ["A", "B"], true, okWorld⟩

/-- A single-agent run whose cancellation flag becomes set at checkpoint 2,
i.e. only after the final stage-1 flag check: after stage1_complete is
emitted and before stage2_start. -/
def lateCancelEnv : RunEnv :=
  ⟨some ["A"], false,
    ⟨[⟨"A", some "ra"⟩], some 2, false, false, false, false, "T", "S", "boom"⟩⟩

/-- lateCancelEnv with the flag never set; the behaviour it should coincide
with. -/
def lateCancelNoneEnv : RunEnv :=
  ⟨some ["A"], false,
    ⟨[⟨"A", some "ra"⟩], none, false, false, false, false, "T", "S", "boom"⟩⟩

/-- A single-agent run in which the one invocation completes but fails
(returns no response), with no cancellation and no collaborator fault. -/
def failAllEnv : RunEnv :=
  ⟨some ["A"], false,
    ⟨[⟨"A", none⟩], none, false, false, false, false, "T", "S", "boom"⟩⟩

end LLMCouncil

namespace LLMCouncil

theorem cancelSeen_false_of_le {cancelAt : Option Nat} {i j : Nat}
    (h : cancelSeen cancelAt j = false) (hij : i ≤ j) :
    cancelSeen cancelAt i = false := by
  cases cancelAt with
  | none => rfl
  | some k =>
    simp only [cancelSeen, decide_eq_false_iff_not] at h ⊢
    omega

theorem stage1Loop_shape (cancelAt : Option Nat) (total : Nat) :
    ∀ (cs : List AgentOutcome) (i : Nat) (ca : List String) (cnt : Nat)
      (res : List Stage1Result),
      (stage1Loop cancelAt total cs i ca cnt res).2.1 = res ∧
      (stage1Loop cancelAt total cs i ca cnt res).1 =
        (if (stage1Loop cancelAt total cs i ca cnt res).2.2 then
          [cancelledUser] else []) := by
  intro cs
  induction cs with
  | nil =>
    intro i ca cnt res
    exact ⟨rfl, rfl⟩
  | cons o rest ih =>
    intro i ca cnt res
    by_cases h0 : cancelSeen cancelAt i = true
    · simp [stage1Loop, h0]
    · rw [Bool.not_eq_true] at h0
      have hres := ih (i + 1) ca cnt res
      simpa [stage1Loop, h0, taskLookup] using hres

theorem stage1Loop_no_cancel (cancelAt : Option Nat) (total : Nat) :
    ∀ (cs : List AgentOutcome) (i : Nat) (ca : List String) (cnt : Nat)
      (res : List Stage1Result),
      (∀ j, j < cs.length → cancelSeen cancelAt (i + j) = false) →
      stage1Loop cancelAt total cs i ca cnt res = ([], res, false) := by
  intro cs
  induction cs with
  | nil =>
    intro i ca cnt res _
    rfl
  | cons o rest ih =>
    intro i ca cnt res hnc
    have h0 : cancelSeen cancelAt i = false := by
      have := hnc 0 (by simp)
      simpa using this
    have hrest : ∀ j, j < rest.length →
        cancelSeen cancelAt (i + 1 + j) = false := by
      intro j hj
      have := hnc (j + 1) (by simpa using Nat.succ_lt_succ hj)
      simpa [Nat.add_assoc, Nat.add_comm 1 j] using this
    simp [stage1Loop, h0, taskLookup, ih (i + 1) ca cnt res hrest]

theorem getLast?_cons_append_singleton {α : Type} (a b : α) (l : List α) :
    (a :: (l ++ [b])).getLast? = some b := by
  rw [← List.cons_append, List.getLast?_concat]

theorem getLast?_append_right {α : Type} (l₁ l₂ : List α) (a : α)
    (h : l₂.getLast? = some a) : (l₁ ++ l₂).getLast? = some a := by
  rw [List.getLast?_append, h]
  rfl

theorem restRun_stage2Input (env : RunEnv) (res : List Stage1Result) :
    (restRun env res).stage2Input = some res := by
  unfold restRun
  split_ifs <;> rfl

theorem restRun_user (env : RunEnv) (res : List Stage1Result) :
    (restRun env res).persist.userMessageAdded = true := by
  unfold restRun
  split_ifs <;> rfl

theorem restRun_starts (env : RunEnv) (res : List Stage1Result) :
    ∃ tail : List SSEEvent,
      (restRun env res).events =
        SSEEvent.stage1_complete res :: SSEEvent.stage2_start :: tail := by
  unfold restRun
  split_ifs <;> exact ⟨_, rfl⟩

theorem restRun_terminal (env : RunEnv) (res : List Stage1Result) :
    ∃ t : SSEEvent, isTerminal t = true ∧
      (restRun env res).events.filter isTerminal = [t] ∧
      (restRun env res).events.getLast? = some t := by
  unfold restRun
  split_ifs <;> refine ⟨_, ?_, ?_, rfl⟩ <;> simp [isTerminal, List.filter]

theorem restRun_assistant_iff (env : RunEnv) (res : List Stage1Result) :
    (restRun env res).persist.assistantMessageAdded = true ↔
      (restRun env res).events.getLast? = some SSEEvent.complete := by
  unfold restRun
  split_ifs <;> simp

theorem restRun_success (env : RunEnv) (res : List Stage1Result)
    (h2 : env.world.stage2Fails = false) (h3 : env.world.stage3Fails = false)
    (ht : env.isFirstMessage = true → env.world.titleFails = false) :
    (restRun env res).events =
      [SSEEvent.stage1_complete res, SSEEvent.stage2_start,
        SSEEvent.stage2_complete, SSEEvent.stage3_start,
        SSEEvent.stage3_complete env.world.stage3Text] ++
      (if env.isFirstMessage then
          [SSEEvent.title_complete env.world.titleText]
        else []) ++
      [SSEEvent.complete] ∧
    (restRun env res).persist = ⟨true, env.isFirstMessage, true⟩ := by
  unfold restRun
  cases hf : env.isFirstMessage with
  | true =>
    have htf : env.world.titleFails = false := ht hf
    simp [h2, h3, hf, htf]
  | false =>
    simp [h2, h3, hf]

theorem eventGenerator_none (env : RunEnv) (hA : env.agents = none) :
    eventGenerator env =
      ⟨[SSEEvent.error lenNoneMsg], ⟨true, false, false⟩, none⟩ := by
  simp [eventGenerator, hA]

theorem eventGenerator_clean (env : RunEnv) (agentsToUse : List String)
    (hA : env.agents = some agentsToUse)
    (hnc : cancelSeen env.world.cancelAt env.world.completions.length
      = false) :
    eventGenerator env =
      ⟨SSEEvent.stage1_start agentsToUse.length :: (restRun env []).events,
        (restRun env []).persist,
        (restRun env []).stage2Input⟩ := by
  have hloop := stage1Loop_no_cancel env.world.cancelAt agentsToUse.length
    env.world.completions 0 [] 0 []
    (by
      intro j hj
      have := cancelSeen_false_of_le hnc (Nat.le_of_lt hj)
      simpa using this)
  simp [eventGenerator, hA, hloop, hnc]

/-- C1: for every streamed run that finishes without a cancelled and without
an error event, the emitted events are exactly stage1_start, then zero or
more stage1_progress events (the program emits exactly zero of them, since
the completion-attribution lookup of main.py line 345 never succeeds), then
stage1_complete, stage2_start, stage2_complete, stage3_start,
stage3_complete, then title_complete exactly when the message is the
conversation's first, then complete — i.e. the events equal the success
trace, so no event type ever appears out of this order. -/
theorem C1_success_event_order (env : RunEnv) (agentsToUse : List String)
    (hA : env.agents = some agentsToUse)
    (hclean : ∀ e ∈ (eventGenerator env).events,
      isCancelledEvt e = false ∧ isErrorEvt e = false) :
    (eventGenerator env).events = successTrace env agentsToUse := by
  have hnc : cancelSeen env.world.cancelAt env.world.completions.length
      = false := by
    by_contra hcon
    rw [Bool.not_eq_false] at hcon
    obtain ⟨hres, hev⟩ := stage1Loop_shape env.world.cancelAt
      agentsToUse.length env.world.completions 0 [] 0 []
    have hmem : cancelledUser ∈ (eventGenerator env).events := by
      by_cases hr : (stage1Loop env.world.cancelAt agentsToUse.length
          env.world.completions 0 [] 0 []).2.2 = true
      · rw [hr, if_pos rfl] at hev
        simp only [eventGenerator, hA, hr, if_true]
        simp [hev]
      · rw [Bool.not_eq_true] at hr
        simp only [eventGenerator, hA, hr, Bool.false_eq_true, if_false,
          hcon, if_true]
        simp
    exact absurd (hclean cancelledUser hmem).1
      (by simp [cancelledUser, isCancelledEvt])
  have hgen := eventGenerator_clean env agentsToUse hA hnc
  have h2 : env.world.stage2Fails = false := by
    by_contra hcon
    rw [Bool.not_eq_false] at hcon
    have hmem : SSEEvent.error env.world.faultMsg ∈
        (eventGenerator env).events := by
      rw [hgen]
      simp [restRun, hcon]
    exact absurd (hclean _ hmem).2 (by simp [isErrorEvt])
  have h3 : env.world.stage3Fails = false := by
    by_contra hcon
    rw [Bool.not_eq_false] at hcon
    have hmem : SSEEvent.error env.world.faultMsg ∈
        (eventGenerator env).events := by
      rw [hgen]
      simp [restRun, h2, hcon]
    exact absurd (hclean _ hmem).2 (by simp [isErrorEvt])
  have ht : env.isFirstMessage = true → env.world.titleFails = false := by
    intro hf
    by_contra hcon
    rw [Bool.not_eq_false] at hcon
    have hmem : SSEEvent.error env.world.faultMsg ∈
        (eventGenerator env).events := by
      rw [hgen]
      simp [restRun, h2, h3, hf, hcon]
    exact absurd (hclean _ hmem).2 (by simp [isErrorEvt])
  rw [hgen]
  show SSEEvent.stage1_start agentsToUse.length ::
      (restRun env []).events = successTrace env agentsToUse
  rw [(restRun_success env [] h2 h3 ht).1]
  simp [successTrace]

/-- Witness for C1 at a concrete fault-free first-message run over agents A
and B: the stream is stage1_start, stage1_complete, stage2_start,
stage2_complete, stage3_start, stage3_complete, title_complete, complete. -/
theorem C1_success_event_order_witness :
    (okEnv.agents = some ["A", "B"]) ∧
    (∀ e ∈ (eventGenerator okEnv).events,
      isCancelledEvt e = false ∧ isErrorEvt e = false) ∧
    (eventGenerator okEnv).events = successTrace okEnv ["A", "B"] :=
  ⟨rfl, by decide,
    C1_success_event_order okEnv ["A", "B"] rfl (by decide)⟩

/-- C2 counterexample: in lateCancelEnv the cancellation flag becomes set at
checkpoint 2, i.e. strictly after the final stage-1 flag check (checkpoint 1,
the one before stage1_complete) — so after stage1_complete is emitted and
before stage2_start.  Contrary to the claim, the generator emits stage2_start
and every later event, emits no cancelled event at all, and persists the
assistant message: there is no cancellation check between stage1_complete and
stage2_start, nor at the top of stages 2 and 3. -/
theorem C2_counterexample :
    lateCancelEnv.world.cancelAt = some 2 ∧
    lateCancelEnv.world.completions.length = 1 ∧
    SSEEvent.stage2_start ∈ (eventGenerator lateCancelEnv).events ∧
    (eventGenerator lateCancelEnv).events.filter isCancelledEvt = [] ∧
    (eventGenerator lateCancelEnv).events.getLast? = some SSEEvent.complete ∧
    (eventGenerator lateCancelEnv).persist.assistantMessageAdded = true := by
  decide

/-- C2 amended: the cancellation flag is checked only at each stage-1 task
completion and once more just before stage1_complete.  A flag that becomes
set after that final check — in particular after stage1_complete is emitted
but before stage2_start — is never observed: the run behaves exactly as if it
had never been cancelled, so stage2_start and all later events are emitted
and the assistant message is persisted on the otherwise-successful path.
When the flag is set at or before the final stage-1 check, a cancellation
notice is the last event delivered, and neither the title nor the assistant
message is persisted. -/
theorem C2_amended_cancellation_checkpoints (env : RunEnv) (k : Nat)
    (hk : env.world.cancelAt = some k) :
    (env.world.completions.length < k →
      eventGenerator env =
        eventGenerator ⟨env.agents, env.isFirstMessage,
          ⟨env.world.completions, none, env.world.stage2Fails,
            env.world.stage3Fails, env.world.titleFails,
            env.world.councilFails, env.world.titleText,
            env.world.stage3Text, env.world.faultMsg⟩⟩) ∧
    (∀ agentsToUse : List String, env.agents = some agentsToUse →
      k ≤ env.world.completions.length →
      (eventGenerator env).events.getLast? = some cancelledUser ∧
      (eventGenerator env).persist = ⟨true, false, false⟩ ∧
      (eventGenerator env).stage2Input = none) := by
  constructor
  · intro hlt
    obtain ⟨ag, first, ⟨cs, c, f2, f3, ft, fc, tt, s3, fm⟩⟩ := env
    simp only at hk
    subst hk
    cases ag with
    | none => simp [eventGenerator]
    | some l =>
      have h1 := stage1Loop_no_cancel (some k) l.length cs 0 [] 0 []
        (by
          intro j hj
          simp only [cancelSeen, decide_eq_false_iff_not]
          simp only at hlt
          omega)
      have h2 := stage1Loop_no_cancel none l.length cs 0 [] 0 []
        (by intro j hj; rfl)
      have hck : cancelSeen (some k) cs.length = false := by
        simp only [cancelSeen, decide_eq_false_iff_not]
        simp only at hlt
        omega
      have hcn : cancelSeen none cs.length = false := rfl
      simp [eventGenerator, h1, h2, hck, hcn, restRun]
  · intro agentsToUse hA hle
    have hc : cancelSeen env.world.cancelAt env.world.completions.length
        = true := by
      rw [hk]
      simp only [cancelSeen, decide_eq_true_eq]
      exact hle
    obtain ⟨hres, hev⟩ := stage1Loop_shape env.world.cancelAt
      agentsToUse.length env.world.completions 0 [] 0 []
    by_cases hr : (stage1Loop env.world.cancelAt agentsToUse.length
        env.world.completions 0 [] 0 []).2.2 = true
    · rw [hr, if_pos rfl] at hev
      refine ⟨?_, ?_, ?_⟩ <;>
        simp [eventGenerator, hA, hr, hev]
    · rw [Bool.not_eq_true] at hr
      rw [hr] at hev
      simp only [Bool.false_eq_true, if_false] at hev
      refine ⟨?_, ?_, ?_⟩ <;>
        simp [eventGenerator, hA, hr, hc, hev]

/-- Witness for the amended C2 at the concrete late-cancellation run: the
flag set at checkpoint 2 (after stage1_complete, before stage2_start) leaves
the run identical to the never-cancelled run. -/
theorem C2_amended_cancellation_checkpoints_witness :
    (lateCancelEnv.world.cancelAt = some 2) ∧
    (lateCancelEnv.world.completions.length < 2) ∧
    eventGenerator lateCancelEnv = eventGenerator lateCancelNoneEnv :=
  ⟨rfl, by decide,
    (C2_amended_cancellation_checkpoints lateCancelEnv 2 rfl).1 (by decide)⟩

/-- C3, evaluated at its failing input: a run over the single agent A whose
invocation completes and responds, with no cancellation and no collaborator
fault.  The claim says one stage1_progress event (one responding agent); the
code emits zero stage1_progress events — task_to_model.get(done_task, None)
at main.py line 345 always returns None because plain iteration of
asyncio.as_completed yields fresh awaitables, never the Task keys, so the
guard at line 346 is never taken even though the code builds task_to_model
(lines 314-320) and comments lines 327, 344 and 349 announce per-agent
progress tracking.  The run otherwise completes normally. -/
theorem C3_no_progress_events_emitted :
    ((eventGenerator lateCancelNoneEnv).events.filter isProgress).length
      = 0 ∧
    (lateCancelNoneEnv.world.completions.filter
      (fun o => o.response.isSome)).length = 1 ∧
    (eventGenerator lateCancelNoneEnv).events.getLast?
      = some SSEEvent.complete := by
  decide

/-- C4: for every streamed run, the emitted event sequence contains exactly
one terminal event (complete, cancelled, or error) and that terminal event is
the last event of the stream — the stream is never silently truncated. -/
theorem C4_single_terminal_event (env : RunEnv) :
    ∃ t : SSEEvent, isTerminal t = true ∧
      (eventGenerator env).events.filter isTerminal = [t] ∧
      (eventGenerator env).events.getLast? = some t := by
  cases hA : env.agents with
  | none =>
    rw [eventGenerator_none env hA]
    exact ⟨SSEEvent.error lenNoneMsg, rfl, by simp [isTerminal], rfl⟩
  | some agentsToUse =>
    obtain ⟨hres, hev⟩ := stage1Loop_shape env.world.cancelAt
      agentsToUse.length env.world.completions 0 [] 0 []
    by_cases hr : (stage1Loop env.world.cancelAt agentsToUse.length
        env.world.completions 0 [] 0 []).2.2 = true
    · rw [hr, if_pos rfl] at hev
      refine ⟨cancelledUser, rfl, ?_, ?_⟩ <;>
        simp [eventGenerator, hA, hr, hev, isTerminal, cancelledUser,
          List.filter]
    · rw [Bool.not_eq_true] at hr
      rw [hr] at hev
      simp only [Bool.false_eq_true, if_false] at hev
      by_cases hc : cancelSeen env.world.cancelAt
          env.world.completions.length = true
      · refine ⟨cancelledUser, rfl, ?_, ?_⟩ <;>
          simp [eventGenerator, hA, hr, hc, hev, isTerminal, cancelledUser,
            List.filter]
      · rw [Bool.not_eq_true] at hc
        obtain ⟨t, ht, htf, htl⟩ := restRun_terminal env
          (stage1Loop env.world.cancelAt agentsToUse.length
            env.world.completions 0 [] 0 []).2.1
        refine ⟨t, ht, ?_, ?_⟩
        · simp only [eventGenerator, hA, hr, hc, Bool.false_eq_true,
            if_false]
          simp only [hev, List.nil_append, List.filter_cons]
          simp [isTerminal, htf]
        · simp only [eventGenerator, hA, hr, hc, Bool.false_eq_true,
            if_false]
          rw [hev]
          exact getLast?_append_right
            [SSEEvent.stage1_start agentsToUse.length] _ t htl

/-- C5, evaluated at its failing input: agents A and B, where B's invocation
responds and A's fails.  The claim says only A is absent from the stage-1
result set while sibling B keeps its entry; the code produces
stage1_complete [] and hands [] to stage 2 — B's entry is dropped too,
because the appends to stage1_results (main.py lines 351-355) sit under the
line-346 guard, which is never taken since the task_to_model lookup at line
345 always misses the fresh as_completed awaitables. -/
theorem C5_results_never_retained :
    (okEnv.world.completions.filter
      (fun o => o.response.isSome)).length = 1 ∧
    SSEEvent.stage1_complete [] ∈ (eventGenerator okEnv).events ∧
    (eventGenerator okEnv).stage2Input = some [] ∧
    (∀ rs, SSEEvent.stage1_complete rs ∈ (eventGenerator okEnv).events →
      rs = []) := by
  refine ⟨by decide, by decide, by decide, ?_⟩
  intro rs hmem
  have hev : (eventGenerator okEnv).events =
      [SSEEvent.stage1_start 2, SSEEvent.stage1_complete [],
        SSEEvent.stage2_start, SSEEvent.stage2_complete,
        SSEEvent.stage3_start, SSEEvent.stage3_complete "S",
        SSEEvent.title_complete "T", SSEEvent.complete] := by
    decide
  rw [hev] at hmem
  simp at hmem
  exact hmem

/-- C6: when every agent invocation of a non-empty agent list fails,
stage1_complete is emitted carrying an empty results list (not an error),
immediately followed by stage2_start, and stage2_collect_rankings is invoked
with the empty stage-1 result list. -/
theorem C6_all_fail_proceeds (env : RunEnv) (agentsToUse : List String)
    (hA : env.agents = some agentsToUse) (hne0 : agentsToUse ≠ [])
    (hfail : ∀ o ∈ env.world.completions, o.response = none)
    (hnd : (env.world.completions.map AgentOutcome.model).Nodup)
    (hne : ∀ o ∈ env.world.completions, o.model ≠ "")
    (hnc : cancelSeen env.world.cancelAt env.world.completions.length
      = false) :
    [SSEEvent.stage1_complete [], SSEEvent.stage2_start] <:+:
      (eventGenerator env).events ∧
    (eventGenerator env).stage2Input = some [] := by
  have hgen := eventGenerator_clean env agentsToUse hA hnc
  obtain ⟨tail, htail⟩ := restRun_starts env []
  constructor
  · rw [hgen]
    refine ⟨[SSEEvent.stage1_start agentsToUse.length], tail, ?_⟩
    simp [htail]
  · rw [hgen]
    show (restRun env []).stage2Input = some []
    rw [restRun_stage2Input]

/-- Witness for C6 at failAllEnv: the single agent A completes without a
response; stage1_complete carries [] and stage 2 is entered on []. -/
theorem C6_all_fail_proceeds_witness :
    (failAllEnv.agents = some ["A"]) ∧
    ((["A"] : List String) ≠ []) ∧
    (∀ o ∈ failAllEnv.world.completions, o.response = none) ∧
    ([SSEEvent.stage1_complete [], SSEEvent.stage2_start] <:+:
      (eventGenerator failAllEnv).events) ∧
    (eventGenerator failAllEnv).stage2Input = some [] := by
  have h := C6_all_fail_proceeds failAllEnv ["A"] rfl (by decide)
    (by decide) (by decide) (by decide) rfl
  exact ⟨rfl, by decide, by decide, h.1, h.2⟩

/-- C7: on a fault-free run, a title is generated and persisted exactly when
the message is the conversation's first; the title task is awaited only after
stage 3 completes, so title_complete appears after stage3_complete and
immediately before complete; on a non-first message no title event is emitted
and the title is never updated. -/
theorem C7_title_iff_first (env : RunEnv) (agentsToUse : List String)
    (hA : env.agents = some agentsToUse)
    (hnd : (env.world.completions.map AgentOutcome.model).Nodup)
    (hne : ∀ o ∈ env.world.completions, o.model ≠ "")
    (hnc : cancelSeen env.world.cancelAt env.world.completions.length
      = false)
    (h2 : env.world.stage2Fails = false)
    (h3 : env.world.stage3Fails = false)
    (htf : env.world.titleFails = false) :
    (env.isFirstMessage = true →
      (eventGenerator env).persist.titleUpdated = true ∧
      [SSEEvent.stage3_complete env.world.stage3Text,
        SSEEvent.title_complete env.world.titleText,
        SSEEvent.complete] <:+ (eventGenerator env).events) ∧
    (env.isFirstMessage = false →
      (∀ t, SSEEvent.title_complete t ∉ (eventGenerator env).events) ∧
      (eventGenerator env).persist.titleUpdated = false) := by
  have hgen := eventGenerator_clean env agentsToUse hA hnc
  have hrest := restRun_success env [] h2 h3 (fun _ => htf)
  constructor
  · intro hf
    constructor
    · rw [hgen]
      show (restRun env []).persist.titleUpdated = true
      rw [hrest.2, hf]
    · rw [hgen]
      refine ⟨[SSEEvent.stage1_start agentsToUse.length,
        SSEEvent.stage1_complete [], SSEEvent.stage2_start,
        SSEEvent.stage2_complete, SSEEvent.stage3_start], ?_⟩
      rw [hrest.1, hf]
      simp
  · intro hf
    constructor
    · intro t htmem
      rw [hgen] at htmem
      simp only [List.mem_cons] at htmem
      rcases htmem with h | h
      · cases h
      · rw [hrest.1, hf] at h
        simp at h
    · rw [hgen]
      show (restRun env []).persist.titleUpdated = false
      rw [hrest.2, hf]

/-- Witness for C7 at okEnv, a first-message run: the title is persisted and
title_complete is the second-to-last event, after stage3_complete and before
complete. -/
theorem C7_title_iff_first_witness :
    (okEnv.agents = some ["A", "B"]) ∧
    (okEnv.isFirstMessage = true) ∧
    (eventGenerator okEnv).persist.titleUpdated = true ∧
    [SSEEvent.stage3_complete "S", SSEEvent.title_complete "T",
      SSEEvent.complete] <:+ (eventGenerator okEnv).events := by
  have h := (C7_title_iff_first okEnv ["A", "B"] rfl (by decide) (by decide)
    rfl rfl rfl rfl).1 rfl
  exact ⟨rfl, rfl, h.1, h.2⟩

/-- C8: when the selected_agents form field is omitted or fails to parse as
JSON, the agent list stays None; the run then emits no stage1_start event at
all — evaluating len(agents_to_use) raises first — and the stream consists of
a single error event, although the user message was already persisted. -/
theorem C8_missing_agents_error (conv : ConversationRec)
    (jsonParse : String → Option (List String)) (sel : Option String)
    (world : Oracle) (hbad : parseAgents jsonParse sel = none) :
    (send_message_stream (some conv) jsonParse sel world).events =
      [SSEEvent.error lenNoneMsg] ∧
    (send_message_stream (some conv) jsonParse sel world).persist =
      ⟨true, false, false⟩ ∧
    (∀ n, SSEEvent.stage1_start n ∉
      (send_message_stream (some conv) jsonParse sel world).events) := by
  have hgen := eventGenerator_none
    ⟨parseAgents jsonParse sel, conv.messagesCount = 0, world⟩ hbad
  refine ⟨?_, ?_, ?_⟩
  · simp [send_message_stream, hgen]
  · simp [send_message_stream, hgen]
  · intro n hmem
    simp [send_message_stream, hgen] at hmem

/-- Witness for C8: selected_agents omitted entirely (and a parser that
rejects everything), on an existing conversation with 0 messages. -/
theorem C8_missing_agents_error_witness :
    (parseAgents (fun _ => none) none = none) ∧
    (send_message_stream (some ⟨0⟩) (fun _ => none) none okWorld).events =
      [SSEEvent.error lenNoneMsg] ∧
    (send_message_stream (some ⟨0⟩) (fun _ => none) none
      okWorld).persist.userMessageAdded = true :=
  ⟨rfl, (C8_missing_agents_error ⟨0⟩ (fun _ => none) none okWorld rfl).1,
    by
      rw [(C8_missing_agents_error ⟨0⟩ (fun _ => none) none okWorld
        rfl).2.1]⟩

/-- C9: a request whose conversation id is not in storage fails with HTTP
404 on both the non-streaming and the streaming message endpoint, before any
stream event is emitted and before anything is persisted. -/
theorem C9_unknown_conversation_404
    (jsonParse : String → Option (List String)) (sel : Option String)
    (world : Oracle) :
    send_message none world = (some 404, ⟨false, false, false⟩) ∧
    send_message_stream none jsonParse sel world =
      ⟨some 404, [], ⟨false, false, false⟩, none⟩ :=
  ⟨rfl, rfl⟩

/-- C10: every run of the streamed generator persists the user message and
never removes it on any outcome, and the assistant message is persisted
exactly on the full-success path — when and only when the stream's last event
is complete, so never after a cancelled or error terminal event. -/
theorem C10_persistence_frame (env : RunEnv) :
    (eventGenerator env).persist.userMessageAdded = true ∧
    ((eventGenerator env).persist.assistantMessageAdded = true ↔
      (eventGenerator env).events.getLast? = some SSEEvent.complete) := by
  cases hA : env.agents with
  | none =>
    rw [eventGenerator_none env hA]
    constructor
    · rfl
    · simp
  | some agentsToUse =>
    obtain ⟨hres, hev⟩ := stage1Loop_shape env.world.cancelAt
      agentsToUse.length env.world.completions 0 [] 0 []
    by_cases hr : (stage1Loop env.world.cancelAt agentsToUse.length
        env.world.completions 0 [] 0 []).2.2 = true
    · constructor
      · simp [eventGenerator, hA, hr]
      · rw [hr, if_pos rfl] at hev
        simp only [eventGenerator, hA, hr, if_true]
        simp [hev, cancelledUser]
    · rw [Bool.not_eq_true] at hr
      rw [hr] at hev
      simp only [Bool.false_eq_true, if_false] at hev
      by_cases hc : cancelSeen env.world.cancelAt
          env.world.completions.length = true
      · constructor
        · simp [eventGenerator, hA, hr, hc]
        · simp only [eventGenerator, hA, hr, hc, Bool.false_eq_true,
            if_false, if_true]
          simp [hev, cancelledUser]
      · rw [Bool.not_eq_true] at hc
        obtain ⟨t, ht, htf, htl⟩ := restRun_terminal env
          (stage1Loop env.world.cancelAt agentsToUse.length
            env.world.completions 0 [] 0 []).2.1
        constructor
        · simp only [eventGenerator, hA, hr, hc, Bool.false_eq_true,
            if_false]
          exact restRun_user env _
        · simp only [eventGenerator, hA, hr, hc, Bool.false_eq_true,
            if_false]
          rw [hev]
          have h1 := getLast?_append_right
            [SSEEvent.stage1_start agentsToUse.length]
            (restRun env (stage1Loop env.world.cancelAt agentsToUse.length
              env.world.completions 0 [] 0 []).2.1).events t htl
          rw [h1]
          have h2 := restRun_assistant_iff env
            (stage1Loop env.world.cancelAt agentsToUse.length
              env.world.completions 0 [] 0 []).2.1
          rw [htl] at h2
          exact h2

end LLMCouncil
